import Mathlib

set_option maxRecDepth 4000
set_option linter.unusedVariables false

/-!
Shallow embedding of `request_logging/middleware.py`: a Django middleware that
emits one structured log record per handled request and lets individual
endpoints opt out of logging through a `no_logging` attribute attached to the
resolved view.  Machinery that would raise in Python is modelled with `Except`;
attribute probes (`hasattr`/`getattr` with a default) are modelled with
`Option`.
-/

/-- Python-style attribute values carried by the `no_logging` marker
(`PyVal.none` models Python `None`). -/
inductive PyVal where
  | none
  | bool (b : Bool)
  | int (n : Int)
  | str (s : String)
deriving DecidableEq, Repr

/-- Python truthiness, as tested by `if skip_logging_because:` and
`if method_name:`. -/
def PyVal.truthy : PyVal → Bool
  | PyVal.none => false
  | PyVal.bool b => b
  | PyVal.int n => n != 0
  | PyVal.str s => s != ""

namespace logging

def NOTSET : Int := 0
def DEBUG : Int := 10
def INFO : Int := 20
def WARNING : Int := 30
def ERROR : Int := 40
def CRITICAL : Int := 50

end logging

/-- A view method: an object that may carry the `no_logging` marker attribute
(`Option.none` models an absent attribute, read by `getattr` with default). -/
structure Handler where
  no_logging : Option PyVal
deriving DecidableEq, Repr

/-- A Python class as the resolver sees it: a table from attribute names to
methods, probed with `getattr(cls, name, None)`. -/
structure PyClass where
  attrs : List (String × Handler)
deriving DecidableEq, Repr

/-- The route callable (`route_match.func`).  It optionally exposes `cls`
(DRF-wrapped views), `actions` (DRF viewset method-to-action map) and
`view_class` (Django class-based views), and may itself carry the marker
attribute (`getattr(view, 'no_logging', None)` when `func` stays `view`). -/
structure View where
  cls : Option PyClass
  actions : Option (List (String × String))
  view_class : Option PyClass
  no_logging : Option PyVal
deriving DecidableEq, Repr

/-- The result of `resolve(request.path)`: a `ResolverMatch` exposing `func`. -/
structure RouteMatch where
  func : View
deriving DecidableEq, Repr

/-- The parts of a Django request the middleware reads (`request.user.username`
is flattened into `user`). -/
structure Request where
  method : String
  path : String
  full_path : String
  META : List (String × String)
  user : String
deriving DecidableEq, Repr

structure Response where
  status_code : Int
deriving DecidableEq, Repr

/-- Python `path.split('/')`: split on every occurrence of a single-character
separator, keeping empty segments (`"/a/b/c"` ↦ `["", "a", "b", "c"]`). -/
def pySplit (s : String) (sep : Char) : List String :=
  (s.data.splitOn sep).map (fun cs => List.asString cs)

/-- Python `s.startswith(pre)`, over the strings' character lists. -/
def pyStartswith (s pre : String) : Bool := pre.data.isPrefixOf s.data

/-- Python `s.lower()`, over the string's character list. -/
def pyLower (s : String) : String := ⟨s.data.map Char.toLower⟩

/-- Python `d.get(k)` on a string-keyed dict: the entry at `k`, if any (ordered
association list; real Python dicts are key-unique, so the first match is the
entry). -/
def dictGet {α : Type} : List (String × α) → String → Option α
  | [], _ => Option.none
  | p :: d, k => if p.1 == k then Option.some p.2 else dictGet d k

/-- Python `d[k] = v`: overwrite the existing key in place, else append. -/
def dictSet {α : Type} : List (String × α) → String → α → List (String × α)
  | [], k, v => [(k, v)]
  | p :: d, k, v => if p.1 == k then (k, v) :: d else p :: dictSet d k v

/-- Python `d.update(kvs)`: assign each entry of `kvs` in order. -/
def dictUpdate {α : Type} (d kvs : List (String × α)) : List (String × α) :=
  kvs.foldl (fun acc p => dictSet acc p.1 p.2) d

/-- Python `d[k]`: raises `KeyError` when the key is absent. -/
def dictIndex {α : Type} (d : List (String × α)) (k : String) : Except String α :=
  match dictGet d k with
  | Option.some v => Except.ok v
  | Option.none => Except.error "KeyError"

/-- Models `getattr(cls, name, None)` looking up a method on a class. -/
def PyClass.getattrMethod (c : PyClass) (name : String) : Option Handler :=
  dictGet c.attrs name

/-- The object bound to the local `func` in `_should_log_route`: either the
route callable itself, or the possibly-`None` result of a class-attribute
lookup. -/
inductive FuncRef where
  | viewFunc (v : View)
  | methodRef (m : Option Handler)
deriving DecidableEq, Repr

/-- Models `getattr(func, NO_LOGGING_ATTR, None)`; `getattr(None, _, None)` is
`None`. -/
def FuncRef.getNoLogging : FuncRef → PyVal
  | FuncRef.viewFunc v => v.no_logging.getD PyVal.none
  | FuncRef.methodRef Option.none => PyVal.none
  | FuncRef.methodRef (Option.some h) => h.no_logging.getD PyVal.none

/-- Embeds `LoggingMiddleware._should_log_route`, with every operation that can raise
in Python made explicit in `Except`: the bare `try/except` around `resolve` is
the only exception handler, the dict subscript `view.actions[method]` can raise
`KeyError`, and `getattr` with a default never raises. -/
def _should_log_routeE (resolve : String → Except Unit RouteMatch)
    (request : Request) : Except String PyVal :=
  match resolve request.path with
  | Except.error _ => Except.ok PyVal.none
  | Except.ok route_match =>
    let method := pyLower request.method
    let view := route_match.func
    match view.cls with
    | Option.some cls =>
      match view.actions with
      | Option.some actions =>
        match dictGet actions method with
        | Option.some method_name =>
          if method_name != "" then
            match dictIndex actions method with
            | Except.error e => Except.error e
            | Except.ok action_name =>
              Except.ok (FuncRef.getNoLogging
                (FuncRef.methodRef (cls.getattrMethod action_name)))
          else
            Except.ok (FuncRef.getNoLogging (FuncRef.viewFunc view))
        | Option.none =>
          Except.ok (FuncRef.getNoLogging (FuncRef.viewFunc view))
      | Option.none =>
        Except.ok (FuncRef.getNoLogging (FuncRef.methodRef (cls.getattrMethod method)))
    | Option.none =>
      match view.view_class with
      | Option.some vc =>
        Except.ok (FuncRef.getNoLogging (FuncRef.methodRef (vc.getattrMethod method)))
      | Option.none =>
        Except.ok (FuncRef.getNoLogging (FuncRef.viewFunc view))

/-- The value `_should_log_route` returns on its normal (non-raising) paths. -/
def _should_log_route (resolve : String → Except Unit RouteMatch)
    (request : Request) : PyVal :=
  match _should_log_routeE resolve request with
  | Except.ok v => v
  | Except.error _ => PyVal.none

/-- Embeds `LoggingMiddleware.get_request_headers`: the `HTTP_`-keyed subset of
`request.META`. -/
def get_request_headers (request : Request) : List (String × String) :=
  request.META.filter (fun p => pyStartswith p.1 "HTTP_")

/-- JSON-serializable values appearing in the assembled record. -/
inductive JVal where
  | int (n : Int)
  | num (q : Rat)
  | str (s : String)
deriving DecidableEq, Repr

/-- The `req_info` dict built in `LoggingMiddleware.__call__`. -/
def req_info (request : Request) : List (String × JVal) :=
  [("method", JVal.str request.method),
   ("path", JVal.str request.path),
   ("user", JVal.str request.user)]

/-- One `Logger.log` call, at the granularity the middleware makes them:
either the structured record (whose logging context carries the request and
response as extras) or an informational text notice (whose context carries the
`no_logging` reason). -/
inductive Emitted where
  | record (level : Int) (fields : List (String × JVal))
      (request : Request) (response : Response)
  | notice (level : Int) (message : String) (reason : String)
deriving DecidableEq, Repr

def Emitted.isRecord : Emitted → Bool
  | Emitted.record _ _ _ _ => true
  | Emitted.notice _ _ _ => false

def Emitted.isNotice : Emitted → Bool
  | Emitted.record _ _ _ _ => false
  | Emitted.notice _ _ _ => true

def Emitted.level : Emitted → Int
  | Emitted.record l _ _ _ => l
  | Emitted.notice l _ _ => l

def countRecords (es : List Emitted) : Nat := (es.filter Emitted.isRecord).length

def countNotices (es : List Emitted) : Nat := (es.filter Emitted.isNotice).length

def DEFAULT_LOG_LEVEL : Int := logging.DEBUG

structure LoggingMiddleware where
  log_level : Int
deriving DecidableEq, Repr

/-- Embeds `LoggingMiddleware.__init__`: reads `REQUEST_LOGGING_DATA_LOG_LEVEL`
(`Option.none` models an absent setting, defaulted by `getattr`), validates it
against the six standard levels and raises `ValueError` otherwise. -/
def LoggingMiddleware.init (data_log_level_setting : Option Int) :
    Except String LoggingMiddleware :=
  let log_level := data_log_level_setting.getD DEFAULT_LOG_LEVEL
  if log_level ∈ [logging.NOTSET, logging.DEBUG, logging.INFO,
                  logging.WARNING, logging.ERROR, logging.CRITICAL] then
    Except.ok { log_level := log_level }
  else
    Except.error ("Unknown log level(" ++ toString log_level ++
      ") in setting(REQUEST_LOGGING_DATA_LOG_LEVEL)")

/-- Embeds `LoggingMiddleware._skip_logging_request`: builds the suppressed-request
notice at INFO level.  (Defined in the source but never invoked by
`process_response`.) -/
def _skip_logging_request (request : Request) (reason : String) : List Emitted :=
  [Emitted.notice logging.INFO
    (request.method ++ " " ++ request.full_path ++
      " (not logged because '" ++ reason ++ "')")
    reason]

/-- Embeds `LoggingMiddleware.process_response`: timestamps are rationals in seconds
(`start_time` taken in `__call__`, `now` at the `datetime.utcnow()` call inside
`process_response`).  Returns the response together with the `Logger.log`
calls made; the `req_info['path']` subscript and the `.split` attribute access
are the operations that could raise. -/
def process_responseE (mw : LoggingMiddleware)
    (resolve : String → Except Unit RouteMatch)
    (request : Request) (response : Response) (start_time now : Rat)
    (ri : List (String × JVal)) (headers : List (String × String)) :
    Except String (Response × List Emitted) :=
  let skip_logging_because := _should_log_route resolve request
  if skip_logging_because.truthy then
    Except.ok (response, [])
  else
    let time := now - start_time
    let message := [("status_code", JVal.int response.status_code),
                    ("time", JVal.num time)]
    let message := dictUpdate message ri
    let message := dictUpdate message (headers.map (fun p => (p.1, JVal.str p.2)))
    match dictIndex ri "path" with
    | Except.error e => Except.error e
    | Except.ok pv =>
      match pv with
      | JVal.str path =>
        let message := dictUpdate message
          ((pySplit path '/').enum.map
            (fun ip => ("path_" ++ toString ip.1, JVal.str ip.2)))
        Except.ok (response, [Emitted.record logging.INFO message request response])
      | _ => Except.error "AttributeError"

/-- Embeds `LoggingMiddleware.__call__`: capture headers and request info, delegate
once to the wrapped handler (modelled as a state-passing function so the
number and order of delegate calls is observable), run `process_response`, and
return the handler's response.  `mw` is unused beyond being `self`, matching
the source (`self.log_level` is never read here). -/
def LoggingMiddleware.call (σ : Type) (mw : LoggingMiddleware)
    (resolve : String → Except Unit RouteMatch)
    (get_response : σ → Request → Response × σ) (s : σ)
    (request : Request) (start_time now : Rat) :
    Except String (Response × σ × List Emitted) :=
  let headers := get_request_headers request
  let ri := req_info request
  let rs := get_response s request
  match process_responseE mw resolve request rs.1 start_time now ri headers with
  | Except.ok pr => Except.ok (rs.1, rs.2, pr.2)
  | Except.error e => Except.error e

/-- The structured record `process_response` assembles for a non-suppressed
request, as a Python (ordered, key-unique) dict. -/
def assembledMessage (request : Request) (response : Response)
    (start_time now : Rat) (headers : List (String × String)) :
    List (String × JVal) :=
  dictUpdate
    (dictUpdate
      (dictUpdate
        [("status_code", JVal.int response.status_code),
         ("time", JVal.num (now - start_time))]
        (req_info request))
      (headers.map (fun p => (p.1, JVal.str p.2))))
    ((pySplit request.path '/').enum.map
      (fun ip => ("path_" ++ toString ip.1, JVal.str ip.2)))

/-- Extracts the fields of the single emitted structured record, if the run
produced exactly one. -/
def emittedFields : Except String (Response × List Emitted) →
    Option (List (String × JVal))
  | Except.ok (_, [Emitted.record _ fields _ _]) => Option.some fields
  | _ => Option.none

/-- The decimal digit characters of `n`, most significant first: the list that
`Nat.toDigitsCore` builds for base 10. -/
def natChars (n : Nat) : List Char :=
  if h : n < 10 then [Nat.digitChar n]
  else natChars (n / 10) ++ [Nat.digitChar (n % 10)]
decreasing_by exact Nat.div_lt_self (by omega) (by omega)

/-! Concrete fixtures used by witnesses and counterexamples. -/

def mwD : LoggingMiddleware := { log_level := logging.DEBUG }

/-- A router on which resolution always fails (unmatched path). -/
def resolveNone : String → Except Unit RouteMatch := fun _ => Except.error ()

/-- A plain-function view carrying a truthy suppression marker. -/
def viewC1 : View :=
  ⟨Option.none, Option.none, Option.none, Option.some (PyVal.str "maintenance")⟩

def resolveC1 : String → Except Unit RouteMatch := fun _ => Except.ok ⟨viewC1⟩

def rqC1 : Request := ⟨"GET", "/private", "/private?x=1", [("HTTP_HOST", "h")], "alice"⟩

def rqC2 : Request := ⟨"GET", "/x", "/x", [], "bob"⟩

def clsC3 : PyClass := ⟨[("create", ⟨Option.some (PyVal.bool true)⟩)]⟩

/-- A DRF-style view: `cls` and `actions` present, the `actions` map knows only
`post`, and the route callable itself carries a truthy marker. -/
def viewC3 : View :=
  ⟨Option.some clsC3, Option.some [("post", "create")], Option.none,
   Option.some (PyVal.str "do not log")⟩

def resolveC3 : String → Except Unit RouteMatch := fun _ => Except.ok ⟨viewC3⟩

def rqC3 : Request := ⟨"GET", "/api", "/api", [], "carol"⟩

def rqC5 : Request :=
  ⟨"POST", "/a", "/a", [("HTTP_HOST", "h"), ("CONTENT_LENGTH", "3")], "dave"⟩

def rqC6 : Request := ⟨"GET", "/a/b/c", "/a/b/c", [], "erin"⟩

def rqC7 : Request :=
  ⟨"GET", "/z", "/z", [("HTTP_X_FOO", "bar"), ("CONTENT_LENGTH", "10")], "frank"⟩

/-- A plain-function view whose suppression marker is present but falsy. -/
def viewC10 : View :=
  ⟨Option.none, Option.none, Option.none, Option.some (PyVal.bool false)⟩

def resolveC10 : String → Except Unit RouteMatch := fun _ => Except.ok ⟨viewC10⟩

def rqC10 : Request := ⟨"GET", "/f", "/f", [], "gail"⟩

def clsC4 : PyClass := ⟨[("update", ⟨Option.some (PyVal.bool true)⟩)]⟩

/-- A DRF-style view whose action map lacks the request's method while the
route callable itself carries a truthy marker. -/
def viewC4 : View :=
  ⟨Option.some clsC4, Option.some [("put", "update")], Option.none,
   Option.some (PyVal.str "opted out")⟩

def resolveC4 : String → Except Unit RouteMatch := fun _ => Except.ok ⟨viewC4⟩

def rqC4 : Request := ⟨"GET", "/v4", "/v4", [], "hank"⟩

def rqC4w : Request := ⟨"GET", "/missing", "/missing", [], "ivy"⟩

theorem dictUpdate_cons {α : Type} (d : List (String × α)) (p : String × α)
    (kvs : List (String × α)) :
    dictUpdate d (p :: kvs) = dictUpdate (dictSet d p.1 p.2) kvs := rfl

theorem dictGet_dictSet_self {α : Type} (d : List (String × α)) (k : String) (v : α) :
    dictGet (dictSet d k v) k = Option.some v := by
  induction d with
  | nil => simp [dictGet, dictSet]
  | cons p d ih =>
    by_cases hp : (p.1 == k) = true
    · simp [dictGet, dictSet, hp]
    · simp [dictGet, dictSet, hp, ih]

theorem dictGet_dictSet_ne {α : Type} (d : List (String × α)) (k k' : String) (v : α)
    (h : k' ≠ k) : dictGet (dictSet d k' v) k = dictGet d k := by
  have hk : (k' == k) = false := by simpa using h
  induction d with
  | nil => simp [dictGet, dictSet, hk]
  | cons p d ih =>
    by_cases hp : (p.1 == k') = true
    · have hpk : (p.1 == k) = false := by
        have : p.1 = k' := by simpa using hp
        simpa [this] using h
      simp [dictGet, dictSet, hp, hk, hpk]
    · by_cases hc : (p.1 == k) = true
      · simp [dictGet, dictSet, hp, hc]
      · simp [dictGet, dictSet, hp, hc, ih]

theorem dictGet_dictUpdate_ne {α : Type} (kvs : List (String × α))
    (d : List (String × α)) (k : String)
    (h : ∀ p ∈ kvs, p.1 ≠ k) : dictGet (dictUpdate d kvs) k = dictGet d k := by
  induction kvs generalizing d with
  | nil => rfl
  | cons p kvs ih =>
    rw [dictUpdate_cons]
    rw [ih _ (fun q hq => h q (List.mem_cons_of_mem p hq))]
    exact dictGet_dictSet_ne d k p.1 p.2 (h p (List.mem_cons_self p kvs))

theorem dictGet_dictUpdate_mem {α : Type} (kvs : List (String × α))
    (d : List (String × α)) (k : String) (v : α)
    (hnd : (kvs.map Prod.fst).Nodup) (hmem : (k, v) ∈ kvs) :
    dictGet (dictUpdate d kvs) k = Option.some v := by
  induction kvs generalizing d with
  | nil => cases hmem
  | cons p kvs ih =>
    rw [dictUpdate_cons]
    rcases List.mem_cons.mp hmem with heq | hmem2
    · subst heq
      rw [dictGet_dictUpdate_ne]
      · exact dictGet_dictSet_self d k v
      · intro q hq
        have hk : k ∉ kvs.map Prod.fst := by
          simpa using (List.nodup_cons.mp hnd).1
        intro hqk
        exact hk (hqk ▸ List.mem_map_of_mem Prod.fst hq)
    · have hnd' : (kvs.map Prod.fst).Nodup := by
        rw [List.map_cons] at hnd
        exact hnd.of_cons
      exact ih _ hnd' hmem2

theorem mem_keys_dictSet {α : Type} (d : List (String × α)) (k : String) (v : α)
    (x : String) (hx : x ∈ (dictSet d k v).map Prod.fst) :
    x = k ∨ x ∈ d.map Prod.fst := by
  induction d with
  | nil => simpa [dictSet] using hx
  | cons p d ih =>
    by_cases hp : (p.1 == k) = true
    · simp only [dictSet, hp, if_true, List.map_cons] at hx
      rcases List.mem_cons.mp hx with h1 | h2
      · exact Or.inl h1
      · exact Or.inr (List.mem_cons_of_mem _ h2)
    · simp only [dictSet, hp, if_false, List.map_cons] at hx
      rcases List.mem_cons.mp hx with h1 | h2
      · exact Or.inr (by simp [h1])
      · rcases ih h2 with h3 | h4
        · exact Or.inl h3
        · exact Or.inr (List.mem_cons_of_mem _ h4)

theorem keys_nodup_dictSet {α : Type} (d : List (String × α)) (k : String) (v : α)
    (h : (d.map Prod.fst).Nodup) : ((dictSet d k v).map Prod.fst).Nodup := by
  induction d with
  | nil => simp [dictSet]
  | cons p d ih =>
    rw [List.map_cons] at h
    by_cases hp : (p.1 == k) = true
    · have hpk : p.1 = k := by simpa using hp
      simp only [dictSet, hp, if_true, List.map_cons]
      exact List.nodup_cons.mpr ⟨by simpa [hpk] using (List.nodup_cons.mp h).1,
        (List.nodup_cons.mp h).2⟩
    · simp only [dictSet, hp, if_false, List.map_cons]
      refine List.nodup_cons.mpr ⟨?_, ih (List.nodup_cons.mp h).2⟩
      intro hin
      rcases mem_keys_dictSet d k v p.1 hin with h1 | h2
      · exact hp (by simpa using h1)
      · exact (List.nodup_cons.mp h).1 h2

theorem keys_nodup_dictUpdate {α : Type} (kvs : List (String × α))
    (d : List (String × α)) (h : (d.map Prod.fst).Nodup) :
    ((dictUpdate d kvs).map Prod.fst).Nodup := by
  induction kvs generalizing d with
  | nil => exact h
  | cons p kvs ih =>
    rw [dictUpdate_cons]
    exact ih _ (keys_nodup_dictSet d p.1 p.2 h)

theorem string_data_append (s t : String) : (s ++ t).data = s.data ++ t.data := by
  cases s
  cases t
  rfl

theorem string_eq_of_data_eq (s t : String) (h : s.data = t.data) : s = t := by
  cases s
  cases t
  exact congrArg String.mk h

theorem pathKey_head (t : String) : ("path_" ++ t).data.head? = Option.some 'p' := by
  rw [string_data_append]
  rfl

theorem pathKey_ne (t k : String) (hk : k.data.head? ≠ Option.some 'p') :
    "path_" ++ t ≠ k :=
  fun he => hk (he ▸ pathKey_head t)

theorem startswith_ne (k t : String) (hk : pyStartswith k "HTTP_" = true)
    (ht : pyStartswith t "HTTP_" = false) : k ≠ t := by
  intro he
  rw [he, ht] at hk
  cases hk

theorem natChars_lt (n : Nat) (h : n < 10) : natChars n = [Nat.digitChar n] := by
  rw [natChars]
  exact dif_pos h

theorem natChars_ge (n : Nat) (h : ¬n < 10) :
    natChars n = natChars (n / 10) ++ [Nat.digitChar (n % 10)] := by
  rw [natChars]
  exact dif_neg h

theorem natChars_ne_nil (n : Nat) : natChars n ≠ [] := by
  by_cases h : n < 10
  · rw [natChars_lt n h]
    simp
  · rw [natChars_ge n h]
    simp

theorem toDigitsCore_eq_natChars (fuel n : Nat) (acc : List Char) (hf : n < fuel) :
    Nat.toDigitsCore 10 fuel n acc = natChars n ++ acc := by
  induction fuel generalizing n acc with
  | zero => omega
  | succ fuel ih =>
    simp only [Nat.toDigitsCore]
    by_cases h0 : n / 10 = 0
    · have hn : n < 10 := by omega
      have hm : n % 10 = n := Nat.mod_eq_of_lt hn
      simp [h0, hm, natChars_lt n hn]
    · have hge : ¬n < 10 := by omega
      have hlt : n / 10 < fuel := by
        have : n / 10 < n := Nat.div_lt_self (by omega) (by omega)
        omega
      simp only [h0, if_false]
      rw [ih (n / 10) _ hlt, natChars_ge n hge, List.append_assoc]
      rfl

theorem natRepr_data (n : Nat) : (Nat.repr n).data = natChars n := by
  show ((Nat.toDigits 10 n).asString).data = natChars n
  rw [Nat.toDigits, toDigitsCore_eq_natChars (n + 1) n [] (Nat.lt_succ_self n)]
  simp [List.asString]

theorem digitChar_inj10 : ∀ a < 10, ∀ b < 10,
    Nat.digitChar a = Nat.digitChar b → a = b := by decide

theorem natChars_inj (m : Nat) : ∀ n, natChars m = natChars n → m = n := by
  induction m using Nat.strong_induction_on with
  | _ m ih =>
    intro n h
    by_cases hm : m < 10 <;> by_cases hn : n < 10
    · rw [natChars_lt m hm, natChars_lt n hn] at h
      exact digitChar_inj10 m hm n hn (by simpa using h)
    · rw [natChars_lt m hm, natChars_ge n hn] at h
      have hl := congrArg List.length h
      simp only [List.length_singleton, List.length_append] at hl
      have : natChars (n / 10) = [] := by
        cases hx : natChars (n / 10) with
        | nil => rfl
        | cons a l => rw [hx] at hl; simp at hl
      exact absurd this (natChars_ne_nil _)
    · rw [natChars_ge m hm, natChars_lt n hn] at h
      have hl := congrArg List.length h
      simp only [List.length_singleton, List.length_append] at hl
      have : natChars (m / 10) = [] := by
        cases hx : natChars (m / 10) with
        | nil => rfl
        | cons a l => rw [hx] at hl; simp at hl
      exact absurd this (natChars_ne_nil _)
    · rw [natChars_ge m hm, natChars_ge n hn] at h
      have h' := congrArg List.reverse h
      simp only [List.reverse_append, List.reverse_cons, List.reverse_nil,
        List.nil_append, List.cons_append] at h'
      have hd : Nat.digitChar (m % 10) = Nat.digitChar (n % 10) :=
        (List.cons.inj h').1
      have ht : (natChars (m / 10)).reverse = (natChars (n / 10)).reverse :=
        (List.cons.inj h').2
      have htl : natChars (m / 10) = natChars (n / 10) := by
        rw [← List.reverse_reverse (natChars (m / 10)), ht, List.reverse_reverse]
      have e1 : m / 10 = n / 10 :=
        ih (m / 10) (Nat.div_lt_self (by omega) (by omega)) (n / 10) htl
      have e2 : m % 10 = n % 10 :=
        digitChar_inj10 (m % 10) (Nat.mod_lt m (by omega)) (n % 10)
          (Nat.mod_lt n (by omega)) hd
      omega

theorem natToString_inj (m n : Nat) (h : toString m = toString n) : m = n := by
  apply natChars_inj m n
  rw [← natRepr_data, ← natRepr_data]
  exact congrArg String.data h

theorem pathKey_inj (i j : Nat)
    (h : "path_" ++ toString i = "path_" ++ toString j) : i = j := by
  apply natToString_inj
  apply string_eq_of_data_eq
  have hd := congrArg String.data h
  rw [string_data_append, string_data_append] at hd
  exact List.append_cancel_left hd

theorem dictIndex_req_info_path (request : Request) :
    dictIndex (req_info request) "path" = Except.ok (JVal.str request.path) := rfl

theorem process_responseE_not_skipped (mw : LoggingMiddleware)
    (resolve : String → Except Unit RouteMatch) (request : Request)
    (response : Response) (start_time now : Rat)
    (headers : List (String × String))
    (h : (_should_log_route resolve request).truthy = false) :
    process_responseE mw resolve request response start_time now
        (req_info request) headers
      = Except.ok (response,
          [Emitted.record logging.INFO
            (assembledMessage request response start_time now headers)
            request response]) := by
  unfold process_responseE
  simp only [h, Bool.false_eq_true, if_false]
  rfl

theorem req_info_keys (request : Request) (p : String × JVal)
    (hp : p ∈ req_info request) :
    p.1 = "method" ∨ p.1 = "path" ∨ p.1 = "user" := by
  simp only [req_info, List.mem_cons, List.mem_singleton] at hp
  rcases hp with h1 | h1 | h1 | h1 <;> first
    | (subst h1; simp)
    | cases h1

theorem assembledMessage_base_ne (request : Request) (response : Response)
    (start_time now : Rat) (headers : List (String × String)) (k : String)
    (hh : ∀ p ∈ headers, pyStartswith (Prod.fst p) "HTTP_" = true)
    (hhk : pyStartswith k "HTTP_" = false)
    (hk1 : k ≠ "method") (hk2 : k ≠ "path") (hk3 : k ≠ "user")
    (hkp : k.data.head? ≠ Option.some 'p') :
    dictGet (assembledMessage request response start_time now headers) k
      = dictGet [("status_code", JVal.int response.status_code),
                 ("time", JVal.num (now - start_time))] k := by
  unfold assembledMessage
  rw [dictGet_dictUpdate_ne _ _ _ (fun p hp => by
    rcases List.mem_map.mp hp with ⟨ip, hip, rfl⟩
    exact pathKey_ne (toString ip.1) k hkp)]
  rw [dictGet_dictUpdate_ne _ _ _ (fun p hp => by
    rcases List.mem_map.mp hp with ⟨q, hq, rfl⟩
    exact startswith_ne q.1 k (hh q hq) hhk)]
  rw [dictGet_dictUpdate_ne _ _ _ (fun p hp => by
    rcases req_info_keys request p hp with h1 | h1 | h1 <;> rw [h1]
    · exact fun he => hk1 he.symm
    · exact fun he => hk2 he.symm
    · exact fun he => hk3 he.symm)]

theorem assembledMessage_status (request : Request) (response : Response)
    (start_time now : Rat) (headers : List (String × String))
    (hh : ∀ p ∈ headers, pyStartswith (Prod.fst p) "HTTP_" = true) :
    dictGet (assembledMessage request response start_time now headers) "status_code"
      = Option.some (JVal.int response.status_code) := by
  rw [assembledMessage_base_ne request response start_time now headers "status_code" hh
    (by decide) (by decide) (by decide) (by decide) (by decide)]
  rfl

theorem assembledMessage_time (request : Request) (response : Response)
    (start_time now : Rat) (headers : List (String × String))
    (hh : ∀ p ∈ headers, pyStartswith (Prod.fst p) "HTTP_" = true) :
    dictGet (assembledMessage request response start_time now headers) "time"
      = Option.some (JVal.num (now - start_time)) := by
  rw [assembledMessage_base_ne request response start_time now headers "time" hh
    (by decide) (by decide) (by decide) (by decide) (by decide)]
  rfl

theorem pathPairs_keys_nodup (l : List String) :
    (((l.enum.map (fun ip => ("path_" ++ toString ip.1, JVal.str ip.2))).map
      Prod.fst)).Nodup := by
  rw [List.map_map]
  have : (Prod.fst ∘ fun ip : Nat × String =>
      ("path_" ++ toString ip.1, JVal.str ip.2))
      = (fun i : Nat => "path_" ++ toString i) ∘ Prod.fst := rfl
  rw [this, ← List.map_map]
  apply List.Nodup.map
  · intro a b hab
    exact pathKey_inj a b hab
  · rw [List.enum_eq_enumFrom, List.enumFrom_map_fst]
    exact List.nodup_range' 0 l.length

theorem pathPairs_mem (l : List String) (i : Nat) (hi : i < l.length) :
    ("path_" ++ toString i, JVal.str (l.get ⟨i, hi⟩))
      ∈ l.enum.map (fun ip => ("path_" ++ toString ip.1, JVal.str ip.2)) := by
  apply List.mem_map.mpr
  refine ⟨(i, l.get ⟨i, hi⟩), ?_, rfl⟩
  have hlen : i < (l.enumFrom 0).length := by
    rw [List.enumFrom_length]
    exact hi
  have hget := List.getElem_enumFrom l 0 i hlen
  rw [List.enum_eq_enumFrom]
  have : (l.enumFrom 0)[i] = (i, l.get ⟨i, hi⟩) := by
    rw [hget]
    simp [List.get_eq_getElem]
  rw [← this]
  exact List.getElem_mem hlen

theorem assembledMessage_path_field (request : Request) (response : Response)
    (start_time now : Rat) (headers : List (String × String))
    (i : Nat) (hi : i < (pySplit request.path '/').length) :
    dictGet (assembledMessage request response start_time now headers)
        ("path_" ++ toString i)
      = Option.some (JVal.str ((pySplit request.path '/').get ⟨i, hi⟩)) := by
  unfold assembledMessage
  exact dictGet_dictUpdate_mem _ _ _ _
    (pathPairs_keys_nodup (pySplit request.path '/'))
    (pathPairs_mem (pySplit request.path '/') i hi)

theorem assembledMessage_keys_nodup (request : Request) (response : Response)
    (start_time now : Rat) (headers : List (String × String)) :
    ((assembledMessage request response start_time now headers).map Prod.fst).Nodup := by
  unfold assembledMessage
  apply keys_nodup_dictUpdate
  apply keys_nodup_dictUpdate
  apply keys_nodup_dictUpdate
  exact (by decide : (["status_code", "time"] : List String).Nodup)

theorem dictIndex_of_get {α : Type} (d : List (String × α)) (k : String) (v : α)
    (h : dictGet d k = Option.some v) : dictIndex d k = Except.ok v := by
  unfold dictIndex
  rw [h]

/-- C4 counterexample: the claim also asserts that an absent action-map entry
results in a return of none (do not suppress).  On a route whose handle
carries a class reference and an action map lacking the request's lowercased
method, the resolver returns normally — but with the route callable's own
truthy marker, not none: the request would be suppressed. -/
theorem C4_counterexample :
    _should_log_routeE resolveC4 rqC4 = Except.ok (PyVal.str "opted out")
    ∧ PyVal.str "opted out" ≠ PyVal.none
    ∧ (PyVal.str "opted out").truthy = true :=
  ⟨rfl, by decide, rfl⟩

/-- C4 amended: the suppression resolver never raises — for every router
behaviour and every request, `_should_log_route` (with its possibly-raising
operations made explicit) returns normally, so a missing or unmatched route
never blocks logging — and whenever the external route resolution fails the
returned value is none (do not suppress).  Absent attributes and absent
action-map entries also return normally, but with the marker found on the
fallback handler object, which need not be none. -/
theorem C4_resolver_never_raises_amended
    (resolve : String → Except Unit RouteMatch) (request : Request) :
    (∃ v, _should_log_routeE resolve request = Except.ok v)
    ∧ (resolve request.path = Except.error () →
        _should_log_routeE resolve request = Except.ok PyVal.none) := by
  constructor
  · unfold _should_log_routeE
    cases resolve request.path with
    | error e => exact ⟨PyVal.none, rfl⟩
    | ok rm =>
      obtain ⟨⟨cls, actions, view_class, no_logging⟩⟩ := rm
      cases cls with
      | none =>
        cases view_class with
        | none => exact ⟨_, rfl⟩
        | some vc => exact ⟨_, rfl⟩
      | some c =>
        cases actions with
        | none => exact ⟨_, rfl⟩
        | some acts =>
          dsimp only
          cases hg : dictGet acts (pyLower request.method) with
          | none => exact ⟨_, rfl⟩
          | some method_name =>
            rw [dictIndex_of_get acts (pyLower request.method) method_name hg]
            dsimp only
            by_cases hmn : (method_name != "") = true
            · rw [if_pos hmn]
              exact ⟨_, rfl⟩
            · rw [if_neg hmn]
              exact ⟨_, rfl⟩
  · intro hf
    unfold _should_log_routeE
    rw [hf]

theorem C4_resolver_never_raises_amended_witness :
    (∃ v, _should_log_routeE resolveNone rqC4w = Except.ok v)
    ∧ _should_log_routeE resolveNone rqC4w = Except.ok PyVal.none :=
  ⟨(C4_resolver_never_raises_amended resolveNone rqC4w).1,
    (C4_resolver_never_raises_amended resolveNone rqC4w).2 rfl⟩

/-- C9: per invocation the wrapped handler is called exactly once (the final
handler state is that of a single application, in order), and the middleware
returns that handler's response unchanged, whether or not the request's
logging is suppressed. -/
theorem C9_delegate_called_once (σ : Type) (mw : LoggingMiddleware)
    (resolve : String → Except Unit RouteMatch)
    (get_response : σ → Request → Response × σ) (s : σ)
    (request : Request) (start_time now : Rat) :
    ∃ events,
      LoggingMiddleware.call σ mw resolve get_response s request start_time now
        = Except.ok ((get_response s request).1, (get_response s request).2, events) := by
  unfold LoggingMiddleware.call
  dsimp only
  by_cases h : (_should_log_route resolve request).truthy = true
  · have hp : process_responseE mw resolve request (get_response s request).1
        start_time now (req_info request) (get_request_headers request)
        = Except.ok ((get_response s request).1, []) := by
      unfold process_responseE
      simp [h]
    rw [hp]
    exact ⟨[], rfl⟩
  · have hp := process_responseE_not_skipped mw resolve request
      (get_response s request).1 start_time now (get_request_headers request)
      (by simpa using h)
    rw [hp]
    exact ⟨_, rfl⟩

theorem get_request_headers_keys (request : Request) :
    ∀ p ∈ get_request_headers request, pyStartswith (Prod.fst p) "HTTP_" = true := by
  intro p hp
  exact (List.mem_filter.mp hp).2

/-- C1: the claim says a suppressed request emits exactly one informational
suppressed-notice and zero structured records.  The code's suppressed branch
returns without emitting anything at all (`_skip_logging_request` is defined
but never invoked): for a request whose resolved handler carries a truthy
marker, the full middleware run makes zero `Logger.log` calls. -/
theorem C1_suppressed_emits_nothing :
    _should_log_route resolveC1 rqC1 = PyVal.str "maintenance"
    ∧ (PyVal.str "maintenance").truthy = true
    ∧ LoggingMiddleware.call Unit mwD resolveC1
        (fun s _ => (⟨200⟩, s)) () rqC1 0 1
      = Except.ok (⟨200⟩, (), []) :=
  ⟨rfl, rfl, rfl⟩

/-- C2: the claim says the structured record is emitted at the configured
`data_log_level`.  The code validates and stores that level but emits at the
fixed `logging.INFO` level: with the setting at ERROR, construction succeeds
with `log_level = 40`, yet the one record of a non-suppressed request is
emitted at level 20. -/
theorem C2_record_emitted_at_fixed_INFO :
    LoggingMiddleware.init (Option.some logging.ERROR)
      = Except.ok { log_level := logging.ERROR }
    ∧ ((process_responseE { log_level := logging.ERROR } resolveNone rqC2 ⟨200⟩ 0 1
          (req_info rqC2) []).toOption.map (fun pr => pr.2.map Emitted.level))
      = Option.some [logging.INFO]
    ∧ logging.INFO ≠ logging.ERROR :=
  ⟨rfl, rfl, by decide⟩

/-- C3 counterexample: a route whose handle carries a class reference and an
explicit action map that lacks the request's method, while the route callable
itself carries a truthy marker: the resolver returns that marker, not none. -/
theorem C3_counterexample :
    _should_log_route resolveC3 rqC3 = PyVal.str "do not log"
    ∧ PyVal.str "do not log" ≠ PyVal.none :=
  ⟨rfl, by decide⟩

/-- C3 amended: if the handle carries a class reference and an explicit action
map and the lowercased method is absent from the action map (or maps to an
empty action name), the effective handler falls back to the route callable
itself and the resolver returns that callable's own marker (none only when the
callable carries none). -/
theorem C3_amended_fallback_to_view (resolve : String → Except Unit RouteMatch)
    (request : Request) (rm : RouteMatch) (cls : PyClass)
    (acts : List (String × String))
    (h1 : resolve request.path = Except.ok rm)
    (h2 : rm.func.cls = Option.some cls)
    (h3 : rm.func.actions = Option.some acts)
    (h4 : (dictGet acts (pyLower request.method)).getD "" = "") :
    _should_log_route resolve request = (rm.func.no_logging).getD PyVal.none := by
  obtain ⟨⟨vcls, vactions, view_class, no_logging⟩⟩ := rm
  simp only at h2 h3
  subst h2
  subst h3
  unfold _should_log_route _should_log_routeE
  rw [h1]
  dsimp only
  cases hg : dictGet acts (pyLower request.method) with
  | none => rfl
  | some method_name =>
    have hemp : method_name = "" := by simpa [hg] using h4
    subst hemp
    rfl

theorem C3_amended_fallback_to_view_witness :
    resolveC3 rqC3.path = Except.ok ⟨viewC3⟩
    ∧ (RouteMatch.mk viewC3).func.cls = Option.some clsC3
    ∧ (RouteMatch.mk viewC3).func.actions = Option.some [("post", "create")]
    ∧ (dictGet [("post", "create")] (pyLower rqC3.method)).getD "" = ""
    ∧ _should_log_route resolveC3 rqC3 = (viewC3.no_logging).getD PyVal.none :=
  ⟨rfl, rfl, rfl, by decide,
    C3_amended_fallback_to_view resolveC3 rqC3 ⟨viewC3⟩ clsC3 [("post", "create")]
      rfl rfl rfl (by decide)⟩

/-- C5: for every request whose resolver result is not truthy (no suppression
marker, or route resolution failed), exactly one structured record is emitted,
its `status_code` field equals the response's status code, and its `time`
field is a nonnegative number of elapsed seconds. -/
theorem C5_record_status_and_time (mw : LoggingMiddleware)
    (resolve : String → Except Unit RouteMatch) (request : Request)
    (response : Response) (start_time now : Rat)
    (h : (_should_log_route resolve request).truthy = false)
    (ht : start_time ≤ now) :
    ∃ fields,
      process_responseE mw resolve request response start_time now
          (req_info request) (get_request_headers request)
        = Except.ok (response,
            [Emitted.record logging.INFO fields request response])
      ∧ dictGet fields "status_code" = Option.some (JVal.int response.status_code)
      ∧ ∃ t : Rat, dictGet fields "time" = Option.some (JVal.num t) ∧ 0 ≤ t :=
  ⟨assembledMessage request response start_time now (get_request_headers request),
    process_responseE_not_skipped mw resolve request response start_time now
      (get_request_headers request) h,
    assembledMessage_status request response start_time now
      (get_request_headers request) (get_request_headers_keys request),
    now - start_time,
    assembledMessage_time request response start_time now
      (get_request_headers request) (get_request_headers_keys request),
    sub_nonneg.mpr ht⟩

theorem C5_record_status_and_time_witness :
    (_should_log_route resolveNone rqC5).truthy = false
    ∧ (0 : Rat) ≤ 1
    ∧ (∃ fields,
        process_responseE mwD resolveNone rqC5 ⟨204⟩ 0 1
            (req_info rqC5) (get_request_headers rqC5)
          = Except.ok (⟨204⟩, [Emitted.record logging.INFO fields rqC5 ⟨204⟩])
        ∧ dictGet fields "status_code" = Option.some (JVal.int (204 : Int))
        ∧ ∃ t : Rat, dictGet fields "time" = Option.some (JVal.num t) ∧ 0 ≤ t) :=
  ⟨by decide, zero_le_one,
    C5_record_status_and_time mwD resolveNone rqC5 ⟨204⟩ 0 1 (by decide) zero_le_one⟩

/-- C6: for every non-suppressed request (with any headers dict), the emitted
record has key-unique fields and contains, for each 0-indexed segment of the
request path split on `/`, a `path_i` field holding that segment — the leading
empty segment included — and these lookups hold even when a header key
collides with a `path_i` key, because the path fields are assigned last. -/
theorem C6_path_segment_fields (mw : LoggingMiddleware)
    (resolve : String → Except Unit RouteMatch) (request : Request)
    (response : Response) (start_time now : Rat)
    (headers : List (String × String))
    (h : (_should_log_route resolve request).truthy = false) :
    ∃ fields,
      process_responseE mw resolve request response start_time now
          (req_info request) headers
        = Except.ok (response,
            [Emitted.record logging.INFO fields request response])
      ∧ (fields.map Prod.fst).Nodup
      ∧ ∀ i, ∀ hi : i < (pySplit request.path '/').length,
          dictGet fields ("path_" ++ toString i)
            = Option.some (JVal.str ((pySplit request.path '/').get ⟨i, hi⟩)) :=
  ⟨assembledMessage request response start_time now headers,
    process_responseE_not_skipped mw resolve request response start_time now headers h,
    assembledMessage_keys_nodup request response start_time now headers,
    fun i hi => assembledMessage_path_field request response start_time now headers i hi⟩

theorem C6_path_segment_fields_witness :
    (_should_log_route resolveNone rqC6).truthy = false
    ∧ pySplit rqC6.path '/' = ["", "a", "b", "c"]
    ∧ (∃ fields,
        process_responseE mwD resolveNone rqC6 ⟨200⟩ 0 1
            (req_info rqC6) [("path_1", "boom")]
          = Except.ok (⟨200⟩, [Emitted.record logging.INFO fields rqC6 ⟨200⟩])
        ∧ (fields.map Prod.fst).Nodup
        ∧ ∀ i, ∀ hi : i < (pySplit rqC6.path '/').length,
            dictGet fields ("path_" ++ toString i)
              = Option.some (JVal.str ((pySplit rqC6.path '/').get ⟨i, hi⟩)))
    ∧ (emittedFields (process_responseE mwD resolveNone rqC6 ⟨200⟩ 0 1
          (req_info rqC6) [("path_1", "boom")])).map
        (fun fields => (dictGet fields "path_0", dictGet fields "path_1",
          dictGet fields "path_2", dictGet fields "path_3"))
      = Option.some (Option.some (JVal.str ""), Option.some (JVal.str "a"),
          Option.some (JVal.str "b"), Option.some (JVal.str "c")) :=
  ⟨by decide, by decide,
    C6_path_segment_fields mwD resolveNone rqC6 ⟨200⟩ 0 1 [("path_1", "boom")]
      (by decide),
    rfl⟩

/-- C7: exactly the request-metadata entries whose keys begin with `HTTP_` are
selected for forwarding, and on the concrete request with
`{HTTP_X_FOO: "bar", CONTENT_LENGTH: "10"}` the assembled record carries
`HTTP_X_FOO = "bar"` and no `CONTENT_LENGTH` field. -/
theorem C7_header_filtering (request : Request) :
    (∀ k v, (k, v) ∈ get_request_headers request ↔
      ((k, v) ∈ request.META ∧ pyStartswith k "HTTP_" = true))
    ∧ (emittedFields (process_responseE mwD resolveNone rqC7 ⟨200⟩ 0 1
          (req_info rqC7) (get_request_headers rqC7))).map
        (fun fields => (dictGet fields "HTTP_X_FOO", dictGet fields "CONTENT_LENGTH"))
      = Option.some (Option.some (JVal.str "bar"), Option.none) := by
  constructor
  · intro k v
    simp [get_request_headers, List.mem_filter]
  · rfl

/-- C8: constructing the middleware fails with a configuration error exactly
when the configured `data_log_level` is outside the six standard severity
levels, and an absent setting yields a middleware at the DEBUG default. -/
theorem C8_init_validates_level :
    (∀ v : Int,
      (∃ mw, LoggingMiddleware.init (Option.some v) = Except.ok mw
        ∧ mw.log_level = v)
        ↔ v ∈ ({logging.NOTSET, logging.DEBUG, logging.INFO, logging.WARNING,
                logging.ERROR, logging.CRITICAL} : Finset Int))
    ∧ (∀ v : Int,
      (∃ e, LoggingMiddleware.init (Option.some v) = Except.error e)
        ↔ v ∉ ({logging.NOTSET, logging.DEBUG, logging.INFO, logging.WARNING,
                logging.ERROR, logging.CRITICAL} : Finset Int))
    ∧ LoggingMiddleware.init Option.none
        = Except.ok { log_level := logging.DEBUG } := by
  have hmem : ∀ v : Int,
      (v ∈ [logging.NOTSET, logging.DEBUG, logging.INFO, logging.WARNING,
           logging.ERROR, logging.CRITICAL])
      ↔ v ∈ ({logging.NOTSET, logging.DEBUG, logging.INFO, logging.WARNING,
              logging.ERROR, logging.CRITICAL} : Finset Int) := by
    intro v
    simp
  refine ⟨?_, ?_, rfl⟩
  · intro v
    unfold LoggingMiddleware.init
    dsimp only [Option.getD_some]
    by_cases h : v ∈ [logging.NOTSET, logging.DEBUG, logging.INFO,
        logging.WARNING, logging.ERROR, logging.CRITICAL]
    · rw [if_pos h]
      constructor
      · intro _
        exact (hmem v).mp h
      · intro _
        exact ⟨{ log_level := v }, rfl, rfl⟩
    · rw [if_neg h]
      constructor
      · rintro ⟨mw, hmw, -⟩
        cases hmw
      · intro hns
        exact absurd ((hmem v).mpr hns) h
  · intro v
    unfold LoggingMiddleware.init
    dsimp only [Option.getD_some]
    by_cases h : v ∈ [logging.NOTSET, logging.DEBUG, logging.INFO,
        logging.WARNING, logging.ERROR, logging.CRITICAL]
    · rw [if_pos h]
      constructor
      · rintro ⟨e, he⟩
        cases he
      · intro hn
        exact absurd ((hmem v).mp h) hn
    · rw [if_neg h]
      constructor
      · intro _
        intro hin
        exact h ((hmem v).mpr hin)
      · intro _
        exact ⟨_, rfl⟩

/-- C10: a present-but-falsy suppression marker does not suppress: the request
is logged normally, with exactly one structured record and no notice. -/
theorem C10_falsy_marker_not_suppressed (mw : LoggingMiddleware)
    (resolve : String → Except Unit RouteMatch) (request : Request)
    (response : Response) (start_time now : Rat) (v : PyVal)
    (hv : _should_log_route resolve request = v)
    (hf : v.truthy = false) :
    ∃ es,
      process_responseE mw resolve request response start_time now
          (req_info request) (get_request_headers request)
        = Except.ok (response, es)
      ∧ countRecords es = 1 ∧ countNotices es = 0 := by
  have h : (_should_log_route resolve request).truthy = false := by
    rw [hv]
    exact hf
  exact ⟨[Emitted.record logging.INFO
      (assembledMessage request response start_time now (get_request_headers request))
      request response],
    process_responseE_not_skipped mw resolve request response start_time now
      (get_request_headers request) h,
    rfl, rfl⟩

theorem C10_falsy_marker_not_suppressed_witness :
    _should_log_route resolveC10 rqC10 = PyVal.bool false
    ∧ (PyVal.bool false).truthy = false
    ∧ (∃ es,
        process_responseE mwD resolveC10 rqC10 ⟨200⟩ 0 1
            (req_info rqC10) (get_request_headers rqC10)
          = Except.ok (⟨200⟩, es)
        ∧ countRecords es = 1 ∧ countNotices es = 0) :=
  ⟨rfl, rfl,
    C10_falsy_marker_not_suppressed mwD resolveC10 rqC10 ⟨200⟩ 0 1
      (PyVal.bool false) rfl rfl⟩
